import Mathlib

/-!
# Verification of `s3-sync-tool.py`

A shallow embedding of the interactive S3 sync script.  The script reads
answers from standard input, shells out to `rclone` (and optionally the AWS
CLI), and reports a result.  We model:

* the stream of user answers as a `List String` (each element is one line
  returned by Python's `input()`; running out of the list models `EOFError`);
* Python string methods (`strip`, `lower`, `split`, `replace`, ...) as the
  `py*` helpers below, defined over `String.data` by structural recursion;
* each `subprocess.run` of the sync command by a parameter `Option Int`
  giving its exit code (`none` models an exception raised while running it);
* `sys.exit` / early `return` paths by the shape of the produced outcome.

Definitions follow the source file `s3-sync-tool.py` function by function and
keep its names (snake_case) where Lean allows.
-/

/-!
Python string primitives, re-implemented over `String.data` with structural
recursion so that every definition reduces inside the kernel (`decide`).
-/

/-- Python `s.strip()`: drop leading and trailing whitespace. -/
def pyStrip (s : String) : String :=
  ⟨((s.data.dropWhile Char.isWhitespace).reverse.dropWhile Char.isWhitespace).reverse⟩

/-- Python `s.lower()` (only ASCII letters occur in the script's prompts). -/
def pyLower (s : String) : String :=
  ⟨s.data.map Char.toLower⟩

/-- Python `s.startswith(pat)`. -/
def pyStartsWith (s pat : String) : Bool :=
  pat.data.isPrefixOf s.data

/-- Python `c in s` for a single character `c`. -/
def pyContainsChar (s : String) (c : Char) : Bool :=
  s.data.contains c

/-- Python `s.lstrip('/')`: drop every leading `'/'` character.
Mirrors line 335 of the source. -/
def lstripSlashes (s : String) : String :=
  ⟨s.data.dropWhile (fun c => c == '/')⟩

/-- Splitting a character list at every occurrence of the non-empty
separator `sep`, as Python `str.split(sep)` does.  The `fuel` argument is
always called with the length of the list; each step consumes at least one
character, so the `fuel = 0` fallback is never reached from `pySplit`. -/
def pySplitCLFuel (sep : List Char) : Nat → List Char → List (List Char)
  | _, [] => [[]]
  | 0, l => [l]
  | Nat.succ fuel, c :: cs =>
    if sep.isPrefixOf (c :: cs) then
      [] :: pySplitCLFuel sep fuel (cs.drop (sep.length - 1))
    else
      match pySplitCLFuel sep fuel cs with
      | [] => [[c]]
      | h :: t => (c :: h) :: t

/-- Python `s.split(sep)` for a non-empty separator. -/
def pySplit (s sep : String) : List String :=
  (pySplitCLFuel sep.data s.data.length s.data).map String.mk

/-- Joining character lists with a separator (Python `sep.join`). -/
def pyJoinCL (sep : List Char) : List (List Char) → List Char
  | [] => []
  | [x] => x
  | x :: xs => x ++ sep ++ pyJoinCL sep xs

/-- Python `s.replace(pat, repl)`: replace every occurrence of `pat`
(non-empty in all our uses) by `repl`.  Mirrors line 302 of the source. -/
def pyReplace (s pat repl : String) : String :=
  ⟨pyJoinCL repl.data ((pySplitCLFuel pat.data s.data.length s.data))⟩

/-- Python `s.split(sep, 1)`: split at the first occurrence of `sep` only.
Used by `run_rclone_sync` (lines 442-445) to re-derive the destination from
`s3_path`. -/
def pySplitOnce (s sep : String) : List String :=
  match pySplit s sep with
  | [] => [s]
  | [x] => [x]
  | x :: xs => [x, ⟨pyJoinCL sep.data (xs.map String.data)⟩]

/-- The ARN marker `'arn:aws:s3:::'` tested on line 300 of the source. -/
def arnMarker : String := "arn:aws:s3:::"

/-- Modelled from the claim's words, for comparison only: the bare bucket
name obtained by removing one leading ARN marker from the input. -/
def dropArnMarker (s : String) : String :=
  ⟨s.data.drop arnMarker.data.length⟩

/-- The configuration dictionary returned by `get_s3_config`
(lines 338-344 of the source). -/
structure S3Config where
  bucket_name : String
  region : String
  s3_path : String
  access_key : String
  secret_key : String
  deriving DecidableEq, Repr

/-- The options dictionary returned by `get_sync_options`
(lines 385-406 of the source). -/
structure SyncOptions where
  dry_run : Bool
  delete : Bool
  exclude : List String
  deriving DecidableEq, Repr

/-- Lines 297-307 of `get_s3_config`: read the bucket name.  If the stripped
input starts with the ARN marker, ask for confirmation; on `'yes'` use the
input with every occurrence of the marker removed (Python `str.replace`
replaces all occurrences, not only the leading one), otherwise read a fresh
bucket name.  Returns the bucket name and the unread rest of the input
stream; `none` models `EOFError` (input stream exhausted). -/
def readBucket : List String → Option (String × List String)
  | [] => none
  | b0 :: rest =>
    let bucket := pyStrip b0
    if pyStartsWith bucket arnMarker then
      match rest with
      | [] => none
      | p :: rest2 =>
        if pyLower (pyStrip p) = "yes" then
          some (pyReplace bucket arnMarker "", rest2)
        else
          match rest2 with
          | [] => none
          | b2 :: rest3 => some (pyStrip b2, rest3)
    else
      some (bucket, rest)

/-- One pass through the body of `get_s3_config` (lines 297-344): bucket,
region (default `us-east-1`), optional destination path, access key, secret
key.  Result `some (none, rest)` models the validation failure on line 327
(empty bucket name, access key or secret key) after which the function calls
itself again on the remaining stream; `some (some cfg, rest)` is a successful
return; `none` models `EOFError`. -/
def get_s3_config_attempt (inputs : List String) :
    Option (Option S3Config × List String) :=
  match readBucket inputs with
  | none => none
  | some (bucket, r1) =>
    match r1 with
    | regionIn :: destIn :: akIn :: skIn :: rest =>
      let region0 := pyStrip regionIn
      let region := if region0 = "" then "us-east-1" else region0
      let destination := pyStrip destIn
      let access_key := pyStrip akIn
      let secret_key := pyStrip skIn
      if bucket = "" ∨ access_key = "" ∨ secret_key = "" then
        some (none, rest)
      else
        let s3_path :=
          if destination = "" then "s3:" ++ bucket
          else "s3:" ++ bucket ++ "/" ++ lstripSlashes destination
        some (some ⟨bucket, region, s3_path, access_key, secret_key⟩, rest)
    | _ => none

/-- Model of `get_s3_config` (lines 293-344): repeat `get_s3_config_attempt` until an
attempt passes validation.  The Python function recurses without bound; the
`fuel` argument only bounds that recursion depth and callers pass the length
of the input stream, which can never be exhausted before the stream itself
(each attempt consumes at least five lines). -/
def get_s3_config : Nat → List String → Option (S3Config × List String)
  | 0, _ => none
  | Nat.succ fuel, inputs =>
    match get_s3_config_attempt inputs with
    | none => none
    | some (some cfg, rest) => some (cfg, rest)
    | some (none, rest) => get_s3_config fuel rest

/-- Model of `verify_aws_credentials` (lines 346-383).  `awsCliPresent = false` models
the `FileNotFoundError` branch (lines 381-383): verification is skipped and
treated as success.  `awsLsExit` is the exit code of `aws s3 ls`.  On failure
the user is asked once whether to continue anyway (line 379); the result is
`true` exactly for an answer that strips and lowers to `yes`.  `none` models
`EOFError` on that prompt. -/
def verify_aws_credentials (awsCliPresent : Bool) (awsLsExit : Int)
    (inputs : List String) : Option (Bool × List String) :=
  if awsCliPresent = false then
    some (true, inputs)
  else if awsLsExit = 0 then
    some (true, inputs)
  else
    match inputs with
    | [] => none
    | a :: rest => some (decide (pyLower (pyStrip a) = "yes"), rest)

/-- Model of `get_sync_options` (lines 385-406): read the dry-run answer (default
yes: anything other than `no` enables it), the delete answer (only `yes`
enables it) and the comma-separated exclude patterns (each stripped). -/
def get_sync_options (inputs : List String) :
    Option (SyncOptions × List String) :=
  match inputs with
  | dr :: del :: ex :: rest =>
    let dry_run := pyLower (pyStrip dr) ≠ "no"
    let del_b := pyLower (pyStrip del) = "yes"
    let ex0 := pyStrip ex
    let exclude := if ex0 = "" then [] else (pySplit ex0 ",").map pyStrip
    some (⟨decide dry_run, decide del_b, exclude⟩, rest)
  | _ => none

/-- Lines 440-445 of `run_rclone_sync`: the destination argument re-derived
from `s3_config`.  `s3_path` is split at the first `':'`; if what follows
contains a `'/'`, the part after the first `'/'` is appended to
`s3:<bucket>`. -/
def s3Dest (cfg : S3Config) : String :=
  let afterColon := (pySplitOnce cfg.s3_path ":").getD 1 ""
  if pyContainsChar afterColon '/' then
    "s3:" ++ cfg.bucket_name ++ "/" ++ (pySplitOnce afterColon "/").getD 1 ""
  else
    "s3:" ++ cfg.bucket_name

/-- Lines 447-468 of `run_rclone_sync`: the argument list of the `rclone`
invocation — executable, config file, `sync`, source, destination, fixed
flags, one `--exclude=<pattern>` per pattern, `--delete-after` when
requested, and `--dry-run` appended last when requested. -/
def buildRcloneCmd (exe cfgName sourceDir : String) (cfg : S3Config)
    (opts : SyncOptions) : List String :=
  [exe, "--config", cfgName, "sync", sourceDir, s3Dest cfg,
    "--progress", "--verbose"]
  ++ opts.exclude.map (fun p => "--exclude=" ++ p)
  ++ (if opts.delete then ["--delete-after"] else [])
  ++ (if opts.dry_run then ["--dry-run"] else [])

/-- Python `list.remove(a)`: delete the first occurrence of `a`
(line 502 of the source). -/
def listRemoveFirst (a : String) : List String → List String
  | [] => []
  | x :: xs => if x = a then xs else x :: listRemoveFirst a xs

/-- What one call to `run_rclone_sync` did: its boolean result, the `rclone`
sync commands it ran in order, the unread rest of the input stream, and
whether the temporary configuration file was removed before returning. -/
structure SyncOutcome where
  success : Bool
  invocations : List (List String)
  remaining : List String
  tempConfigDeleted : Bool
  deriving DecidableEq, Repr

/-- The body of `run_rclone_sync` (lines 447-530), between writing the
temporary configuration file and the `finally` block.  `r1` and `r2` are the
outcomes of the first and, when reached, second `subprocess.run` of the sync
command (`none` models an exception, caught on line 527 and turned into a
`False` return; an `EOFError` from the confirmation `input()` on line 499 is
caught there too).  The initial `rclone --version` probe (lines 414-422)
only prints and swallows its exceptions, so it is not modelled. -/
def run_rclone_sync_body (exe cfgName sourceDir : String) (cfg : S3Config)
    (opts : SyncOptions) (r1 r2 : Option Int) (inputs : List String) :
    Bool × List (List String) × List String :=
  let cmd := buildRcloneCmd exe cfgName sourceDir cfg opts
  match r1 with
  | none => (false, [cmd], inputs)
  | some c1 =>
    if c1 ≠ 0 then
      (false, [cmd], inputs)
    else if opts.dry_run then
      match inputs with
      | [] => (false, [cmd], [])
      | ans :: rest =>
        if pyLower (pyStrip ans) = "yes" then
          let cmd2 := listRemoveFirst "--dry-run" cmd
          match r2 with
          | none => (false, [cmd, cmd2], rest)
          | some c2 =>
            if c2 ≠ 0 then (false, [cmd, cmd2], rest)
            else (true, [cmd, cmd2], rest)
        else
          (false, [cmd], rest)
    else
      (true, [cmd], inputs)

/-- Model of `run_rclone_sync` (lines 408-537): run the body and then the `finally`
block (lines 532-537), which unlinks the temporary configuration file on
every path out of the function. -/
def run_rclone_sync (exe cfgName sourceDir : String) (cfg : S3Config)
    (opts : SyncOptions) (r1 r2 : Option Int) (inputs : List String) :
    SyncOutcome :=
  let body := run_rclone_sync_body exe cfgName sourceDir cfg opts r1 r2 inputs
  ⟨body.1, body.2.1, body.2.2, true⟩

/-- The observable steps of `main` (lines 539-598), in source order. -/
inductive Step where
  | checkRclone
  | installRclone
  | getSourceDir
  | getConfig
  | verifyCreds
  | getOptions
  | confirmSummary
  | runSync
  | reportResult
  deriving DecidableEq, Repr

/-- The non-deterministic environment of one run: results of the external
probes and subprocess calls, and the filesystem oracle used by
`get_source_directory`. -/
structure Env where
  rcloneInstalled : Bool
  systemSupported : Bool
  installedAfter : Bool
  isDir : String → Bool
  expandUser : String → String
  awsCliPresent : Bool
  awsLsExit : Int
  rcloneExe : String
  tempName : String
  r1 : Option Int
  r2 : Option Int

/-- Model of `get_source_directory` (lines 279-291): strip and `expanduser` each
answer, returning the first one that names a directory; re-prompt otherwise.
`none` models `EOFError` when the stream runs out. -/
def get_source_directory (isDir : String → Bool) (expandUser : String → String) :
    List String → Option (String × List String)
  | [] => none
  | d :: rest =>
    let s := expandUser (pyStrip d)
    if isDir s then some (s, rest)
    else get_source_directory isDir expandUser rest

/-- What one run of `main` did: the steps it performed in order, the unread
rest of the input stream, and the boolean returned by `run_rclone_sync` when
the sync step was reached (`none`: the run stopped or was cancelled before
the sync). -/
structure MainOutcome where
  trace : List Step
  remaining : List String
  result : Option Bool
  deriving DecidableEq, Repr

/-- Lines 564-598 of `main`: collect sync options, print the summary, ask
for confirmation, and when the answer is `yes` run the sync and report its
result.  The trace is relative to this point of the run. -/
def mainOptionsStage (env : Env) (sourceDir : String) (cfg : S3Config)
    (inputs : List String) : MainOutcome :=
  match get_sync_options inputs with
  | none => ⟨[Step.getOptions], [], none⟩
  | some (opts, in1) =>
    match in1 with
    | [] => ⟨[Step.getOptions, Step.confirmSummary], [], none⟩
    | c :: in2 =>
      if pyLower (pyStrip c) ≠ "yes" then
        ⟨[Step.getOptions, Step.confirmSummary], in2, none⟩
      else
        let out := run_rclone_sync env.rcloneExe env.tempName sourceDir cfg
          opts env.r1 env.r2 in2
        ⟨[Step.getOptions, Step.confirmSummary, Step.runSync, Step.reportResult],
          out.remaining, some out.success⟩

/-- Lines 554-562 of `main`: verify the credentials; on failure offer one
re-entry of the configuration (with no second verification) and cancel when
it is declined. -/
def mainAfterConfig (env : Env) (sourceDir : String) (cfg : S3Config)
    (inputs : List String) : MainOutcome :=
  match verify_aws_credentials env.awsCliPresent env.awsLsExit inputs with
  | none => ⟨[Step.verifyCreds], [], none⟩
  | some (ok, in1) =>
    if ok then
      let o := mainOptionsStage env sourceDir cfg in1
      ⟨Step.verifyCreds :: o.trace, o.remaining, o.result⟩
    else
      match in1 with
      | [] => ⟨[Step.verifyCreds], [], none⟩
      | a :: in2 =>
        if pyLower (pyStrip a) = "yes" then
          match get_s3_config in2.length in2 with
          | none => ⟨[Step.verifyCreds, Step.getConfig], [], none⟩
          | some (cfg2, in3) =>
            let o := mainOptionsStage env sourceDir cfg2 in3
            ⟨Step.verifyCreds :: Step.getConfig :: o.trace, o.remaining, o.result⟩
        else
          ⟨[Step.verifyCreds], in2, none⟩

/-- Lines 551-552 of `main`: collect the S3 configuration, then continue. -/
def mainAfterSource (env : Env) (sourceDir : String) (inputs : List String) :
    MainOutcome :=
  match get_s3_config inputs.length inputs with
  | none => ⟨[Step.getConfig], [], none⟩
  | some (cfg, in1) =>
    let o := mainAfterConfig env sourceDir cfg in1
    ⟨Step.getConfig :: o.trace, o.remaining, o.result⟩

/-- Line 549 of `main`: collect the source directory, then continue. -/
def mainAfterDep (env : Env) (inputs : List String) : MainOutcome :=
  match get_source_directory env.isDir env.expandUser inputs with
  | none => ⟨[Step.getSourceDir], [], none⟩
  | some (src, in1) =>
    let o := mainAfterSource env src in1
    ⟨Step.getSourceDir :: o.trace, o.remaining, o.result⟩

/-- Model of `main` (lines 539-598).  The dependency step first: when `rclone` is
missing, `install_rclone` (lines 25-47) either exits the process — on an
unsupported platform (line 40) or when the post-install check still fails
(line 47), both without reading any input — or succeeds, after which `main`
continues with the source directory prompt. -/
def mainRun (env : Env) (inputs : List String) : MainOutcome :=
  if env.rcloneInstalled then
    let o := mainAfterDep env inputs
    ⟨Step.checkRclone :: o.trace, o.remaining, o.result⟩
  else if env.systemSupported && env.installedAfter then
    let o := mainAfterDep env inputs
    ⟨Step.checkRclone :: Step.installRclone :: o.trace, o.remaining, o.result⟩
  else
    ⟨[Step.checkRclone, Step.installRclone], inputs, none⟩

/-- The pipeline order of `main` (lines 539-598): dependency check (with
optional installation), source directory, configuration, credential
verification (with the optional single re-collection of the configuration
after a failure, lines 554-562), options, summary confirmation, sync and
report. -/
def canonicalTrace : List Step :=
  [Step.checkRclone, Step.installRclone, Step.getSourceDir, Step.getConfig,
    Step.verifyCreds, Step.getConfig, Step.getOptions, Step.confirmSummary,
    Step.runSync, Step.reportResult]

/-! ## Properties -/

/-- A successful `get_s3_config_attempt` only returns configurations whose
required fields pass the validation of line 327. -/
lemma get_s3_config_attempt_fields {inputs : List String} {cfg : S3Config}
    {rest : List String}
    (h : get_s3_config_attempt inputs = some (some cfg, rest)) :
    cfg.bucket_name ≠ "" ∧ cfg.access_key ≠ "" ∧ cfg.secret_key ≠ "" := by
  unfold get_s3_config_attempt at h
  split at h
  · exact absurd h (by simp)
  · split at h
    · dsimp only at h
      split at h
      · exact absurd h (by simp)
      · rename_i hcond
        simp only [Option.some.injEq, Prod.mk.injEq] at h
        obtain ⟨h1, _⟩ := h
        push_neg at hcond
        obtain ⟨hb, ha, hs⟩ := hcond
        cases h1
        exact ⟨hb, ha, hs⟩
    · exact absurd h (by simp)

/-- C2: `get_s3_config` never returns a configuration in which
`bucket_name`, `access_key` or `secret_key` is the empty string: whenever a
required field is empty after prompting, the whole configuration is
collected again (line 329), so every configuration it returns satisfies the
non-emptiness check of line 327. -/
theorem get_s3_config_required_nonempty :
    ∀ (fuel : Nat) (inputs : List String) (cfg : S3Config) (rest : List String),
      get_s3_config fuel inputs = some (cfg, rest) →
      cfg.bucket_name ≠ "" ∧ cfg.access_key ≠ "" ∧ cfg.secret_key ≠ "" := by
  intro fuel
  induction fuel with
  | zero =>
    intro inputs cfg rest h
    exact absurd h (by simp [get_s3_config])
  | succ n ih =>
    intro inputs cfg rest h
    unfold get_s3_config at h
    split at h
    · exact absurd h (by simp)
    · rename_i heq
      simp only [Option.some.injEq, Prod.mk.injEq] at h
      obtain ⟨rfl, rfl⟩ := h
      exact get_s3_config_attempt_fields heq
    · exact ih _ _ _ h

/-- Witness for C2: a concrete run of `get_s3_config` at which the claim
is instantiated. -/
theorem get_s3_config_required_nonempty_witness :
    (⟨"b", "us-east-1", "s3:b", "A", "S"⟩ : S3Config).bucket_name ≠ "" ∧
    (⟨"b", "us-east-1", "s3:b", "A", "S"⟩ : S3Config).access_key ≠ "" ∧
    (⟨"b", "us-east-1", "s3:b", "A", "S"⟩ : S3Config).secret_key ≠ "" :=
  get_s3_config_required_nonempty 1 ["b", "", "", "A", "S"]
    ⟨"b", "us-east-1", "s3:b", "A", "S"⟩ [] (by decide)

/-- C8: on every execution path through `run_rclone_sync` — successful
sync, failed invocation, declined confirmation, or an exception while
running the command — the `finally` block of lines 532-537 removes the
temporary configuration file before the function returns. -/
theorem run_rclone_sync_cleanup :
    ∀ (exe cfgName sourceDir : String) (cfg : S3Config) (opts : SyncOptions)
      (r1 r2 : Option Int) (inputs : List String),
      (run_rclone_sync exe cfgName sourceDir cfg opts r1 r2
        inputs).tempConfigDeleted = true := by
  intro exe cfgName sourceDir cfg opts r1 r2 inputs
  rfl

/-- C10: when the AWS CLI executable is absent (`FileNotFoundError`,
lines 381-383), `verify_aws_credentials` returns `True` without consuming
any input: verification is skipped and treated as success, so the run
proceeds with unverified credentials. -/
theorem verify_aws_credentials_skipped_when_cli_missing :
    ∀ (awsLsExit : Int) (inputs : List String),
      verify_aws_credentials false awsLsExit inputs = some (true, inputs) := by
  intro awsLsExit inputs
  rfl

/-- Evaluation of one validation-passing pass through `get_s3_config`:
given the bucket name resolved by `readBucket` and the four remaining
answers, the attempt returns the configuration built on lines 331-344. -/
lemma get_s3_config_attempt_eval
    (inputs : List String) (bucket regionIn destIn akIn skIn : String)
    (rest : List String)
    (hrb : readBucket inputs = some (bucket, regionIn :: destIn :: akIn :: skIn :: rest))
    (hb : bucket ≠ "") (hak : pyStrip akIn ≠ "") (hsk : pyStrip skIn ≠ "") :
    get_s3_config_attempt inputs =
      some (some ⟨bucket,
        (if pyStrip regionIn = "" then "us-east-1" else pyStrip regionIn),
        (if pyStrip destIn = "" then "s3:" ++ bucket
         else "s3:" ++ bucket ++ "/" ++ lstripSlashes (pyStrip destIn)),
        pyStrip akIn, pyStrip skIn⟩, rest) := by
  unfold get_s3_config_attempt
  rw [hrb]
  dsimp only
  rw [if_neg]
  push_neg
  exact ⟨hb, hak, hsk⟩

/-- A validation-passing first pass makes `get_s3_config` return at once. -/
lemma get_s3_config_first_attempt
    (fuel : Nat) (inputs : List String)
    (bucket regionIn destIn akIn skIn : String) (rest : List String)
    (hrb : readBucket inputs = some (bucket, regionIn :: destIn :: akIn :: skIn :: rest))
    (hb : bucket ≠ "") (hak : pyStrip akIn ≠ "") (hsk : pyStrip skIn ≠ "") :
    get_s3_config (fuel + 1) inputs =
      some (⟨bucket,
        (if pyStrip regionIn = "" then "us-east-1" else pyStrip regionIn),
        (if pyStrip destIn = "" then "s3:" ++ bucket
         else "s3:" ++ bucket ++ "/" ++ lstripSlashes (pyStrip destIn)),
        pyStrip akIn, pyStrip skIn⟩, rest) := by
  have h := get_s3_config_attempt_eval inputs bucket regionIn destIn akIn skIn
    rest hrb hb hak hsk
  simp [get_s3_config, h]

/-- Confirming an ARN-looking bucket answer with `yes` resolves the bucket
name by `str.replace` of the marker (lines 300-305). -/
lemma readBucket_arn_yes (b p : String) (rest : List String)
    (hb : pyStartsWith (pyStrip b) arnMarker = true)
    (hp : pyLower (pyStrip p) = "yes") :
    readBucket (b :: p :: rest) = some (pyReplace (pyStrip b) arnMarker "", rest) := by
  unfold readBucket
  simp [hb, hp]

/-- C4: for a non-empty destination-path answer `get_s3_config` strips the
leading slashes (Python `lstrip('/')`, line 335) and returns
`s3_path = 's3:' ++ bucket ++ '/' ++ stripped path`; for an empty
destination answer it returns `s3_path = 's3:' ++ bucket` (lines 331-336). -/
theorem get_s3_config_destination_path
    (fuel : Nat) (inputs : List String)
    (bucket regionIn destIn akIn skIn : String) (rest : List String)
    (hrb : readBucket inputs = some (bucket, regionIn :: destIn :: akIn :: skIn :: rest))
    (hb : bucket ≠ "") (hak : pyStrip akIn ≠ "") (hsk : pyStrip skIn ≠ "") :
    (get_s3_config (fuel + 1) inputs).map (fun q => q.1.s3_path) =
      some (if pyStrip destIn = "" then "s3:" ++ bucket
            else "s3:" ++ bucket ++ "/" ++ lstripSlashes (pyStrip destIn)) ∧
    (get_s3_config (fuel + 1) inputs).map (fun q => q.1.bucket_name) = some bucket := by
  have h := get_s3_config_first_attempt fuel inputs bucket regionIn destIn akIn skIn
    rest hrb hb hak hsk
  rw [h]
  exact ⟨rfl, rfl⟩

/-- Witness for C4: both the slash-stripping and the bucket-root cases at
concrete inputs. -/
theorem get_s3_config_destination_path_witness :
    ((get_s3_config 1 ["b", "", "//docs/x", "A", "S"]).map (fun q => q.1.s3_path) =
      some (if pyStrip "//docs/x" = "" then "s3:" ++ "b"
            else "s3:" ++ "b" ++ "/" ++ lstripSlashes (pyStrip "//docs/x")) ∧
    (get_s3_config 1 ["b", "", "//docs/x", "A", "S"]).map (fun q => q.1.bucket_name) =
      some "b") ∧
    (get_s3_config 1 ["b", "", "", "A", "S"]).map (fun q => q.1.s3_path) = some "s3:b" :=
  ⟨get_s3_config_destination_path 0 ["b", "", "//docs/x", "A", "S"]
      "b" "" "//docs/x" "A" "S" [] (by decide) (by decide) (by decide) (by decide),
    by decide⟩

/-- C5: an all-whitespace region answer defaults to `us-east-1`
(lines 310-312); any other answer is used stripped. -/
theorem get_s3_config_region_default
    (fuel : Nat) (inputs : List String)
    (bucket regionIn destIn akIn skIn : String) (rest : List String)
    (hrb : readBucket inputs = some (bucket, regionIn :: destIn :: akIn :: skIn :: rest))
    (hb : bucket ≠ "") (hak : pyStrip akIn ≠ "") (hsk : pyStrip skIn ≠ "") :
    (get_s3_config (fuel + 1) inputs).map (fun q => q.1.region) =
      some (if pyStrip regionIn = "" then "us-east-1" else pyStrip regionIn) := by
  have h := get_s3_config_first_attempt fuel inputs bucket regionIn destIn akIn skIn
    rest hrb hb hak hsk
  rw [h]
  rfl

/-- Witness for C5: the default and the explicit region at concrete inputs. -/
theorem get_s3_config_region_default_witness :
    (get_s3_config 1 ["b", "  ", "", "A", "S"]).map (fun q => q.1.region) =
      some (if pyStrip "  " = "" then "us-east-1" else pyStrip "  ") ∧
    (get_s3_config 1 ["b", "eu-west-1", "", "A", "S"]).map (fun q => q.1.region) =
      some "eu-west-1" :=
  ⟨get_s3_config_region_default 0 ["b", "  ", "", "A", "S"]
      "b" "  " "" "A" "S" [] (by decide) (by decide) (by decide) (by decide),
    by decide⟩


/-- Counterexample to C3 as stated: the bucket-name input
`arn:aws:s3:::arn:aws:s3:::x` starts with the ARN marker, but after the user
confirms, `get_s3_config` returns bucket name `x` — `str.replace` on
line 302 removed *every* occurrence of the marker — while the bare name
without the leading marker is `arn:aws:s3:::x`. -/
theorem get_s3_config_arn_counterexample :
    pyStartsWith (pyStrip "arn:aws:s3:::arn:aws:s3:::x") arnMarker = true ∧
    (get_s3_config 1 ["arn:aws:s3:::arn:aws:s3:::x", "yes", "", "", "A", "S"]).map
        (fun q => q.1.bucket_name) = some "x" ∧
    dropArnMarker "arn:aws:s3:::arn:aws:s3:::x" = "arn:aws:s3:::x" ∧
    ("x" : String) ≠ "arn:aws:s3:::x" := by
  refine ⟨by decide, by decide, by decide, by decide⟩

/-- C3 (amended): for a bucket-name input that starts with the ARN marker
and is confirmed with `yes`, `get_s3_config` uses as bucket name the input
with **every** occurrence of `arn:aws:s3:::` removed (Python `str.replace`,
line 302) — which coincides with dropping the leading marker whenever the
remainder contains no further occurrence — provided the resulting name and
the two keys are non-empty so that validation passes. -/
theorem get_s3_config_arn_stripped
    (fuel : Nat) (b p regionIn destIn akIn skIn : String) (rest : List String)
    (hb : pyStartsWith (pyStrip b) arnMarker = true)
    (hp : pyLower (pyStrip p) = "yes")
    (hbucket : pyReplace (pyStrip b) arnMarker "" ≠ "")
    (hak : pyStrip akIn ≠ "") (hsk : pyStrip skIn ≠ "") :
    (get_s3_config (fuel + 1)
        (b :: p :: regionIn :: destIn :: akIn :: skIn :: rest)).map
      (fun q => q.1.bucket_name) = some (pyReplace (pyStrip b) arnMarker "") := by
  have hrb := readBucket_arn_yes b p (regionIn :: destIn :: akIn :: skIn :: rest) hb hp
  have h := get_s3_config_first_attempt fuel _
    (pyReplace (pyStrip b) arnMarker "") regionIn destIn akIn skIn rest hrb
    hbucket hak hsk
  rw [h]
  rfl

/-- Witness for C3 (amended): a confirmed ARN input at concrete values. -/
theorem get_s3_config_arn_stripped_witness :
    (get_s3_config 1 ["arn:aws:s3:::mybucket", "yes", "", "", "A", "S"]).map
      (fun q => q.1.bucket_name) =
      some (pyReplace (pyStrip "arn:aws:s3:::mybucket") arnMarker "") :=
  get_s3_config_arn_stripped 0 "arn:aws:s3:::mybucket" "yes" "" "" "A" "S" []
    (by decide) (by decide) (by decide) (by decide) (by decide)

/-- Removing the first occurrence of an element appended at the end of a
list it does not otherwise contain removes exactly that last element. -/
lemma listRemoveFirst_append_singleton (a : String) :
    ∀ l : List String, a ∉ l → listRemoveFirst a (l ++ [a]) = l := by
  intro l
  induction l with
  | nil => intro _; simp [listRemoveFirst]
  | cons x xs ih =>
    intro h
    have hx : ¬ (x = a) := by
      intro hx
      subst hx
      exact h (List.mem_cons_self x xs)
    have hm : a ∉ xs := fun hm => h (List.mem_cons_of_mem _ hm)
    calc listRemoveFirst a ((x :: xs) ++ [a])
        = x :: listRemoveFirst a (xs ++ [a]) := by
          simp [listRemoveFirst, hx]
      _ = x :: xs := by rw [ih hm]

lemma s3_prepend_ne_dry_run (s : String) : "s3:" ++ s ≠ "--dry-run" := by
  intro h
  have hd := congrArg String.data h
  rw [String.data_append] at hd
  have h1 : ("s3:" : String).data = ['s', '3', ':'] := rfl
  rw [h1] at hd
  have h2 : ("--dry-run" : String).data = ['-', '-', 'd', 'r', 'y', '-', 'r', 'u', 'n'] := rfl
  rw [h2] at hd
  injection hd with hd1 _
  exact absurd hd1 (by decide)

lemma exclude_ne_dry_run (p : String) : "--exclude=" ++ p ≠ "--dry-run" := by
  intro h
  have hl := congrArg String.length h
  rw [String.length_append] at hl
  have h1 : ("--exclude=" : String).length = 10 := rfl
  have h2 : ("--dry-run" : String).length = 9 := rfl
  rw [h1, h2] at hl
  omega

lemma s3Dest_ne_dry_run (cfg : S3Config) : s3Dest cfg ≠ "--dry-run" := by
  unfold s3Dest
  dsimp only
  split
  · rw [String.append_assoc, String.append_assoc]
    exact s3_prepend_ne_dry_run _
  · exact s3_prepend_ne_dry_run _

/-- In a command built without the dry-run option, no argument equals
`--dry-run` as long as neither the executable path, the config file path
nor the source directory does. -/
lemma dry_run_not_mem_buildRcloneCmd (exe cn sd : String) (cfg : S3Config)
    (del : Bool) (ex : List String)
    (hexe : exe ≠ "--dry-run") (hcn : cn ≠ "--dry-run") (hsd : sd ≠ "--dry-run") :
    "--dry-run" ∉ buildRcloneCmd exe cn sd cfg ⟨false, del, ex⟩ := by
  intro hmem
  have hmem' : "--dry-run" ∈
      ([exe, "--config", cn, "sync", sd, s3Dest cfg, "--progress", "--verbose"]
        ++ ex.map (fun p => "--exclude=" ++ p)
        ++ (if del then ["--delete-after"] else [])
        ++ ([] : List String)) := hmem
  simp only [List.append_nil, List.mem_append, List.mem_cons, List.mem_map,
    List.not_mem_nil, or_false] at hmem'
  rcases hmem' with ((h | h | h | h | h | h | h | h) | ⟨p, -, hp⟩) | h
  · exact hexe h.symm
  · exact absurd h (by decide)
  · exact hcn h.symm
  · exact absurd h (by decide)
  · exact hsd h.symm
  · exact s3Dest_ne_dry_run cfg h.symm
  · exact absurd h (by decide)
  · exact absurd h (by decide)
  · exact exclude_ne_dry_run p hp
  · split at h
    · simp only [List.mem_singleton] at h
      exact absurd h (by decide)
    · exact absurd h (List.not_mem_nil _)

/-- With the dry-run option on, the command is the dry-run-free command with
`--dry-run` appended at the end (line 468 appends it last). -/
lemma buildRcloneCmd_dry_run_append (exe cn sd : String) (cfg : S3Config)
    (opts : SyncOptions) (h : opts.dry_run = true) :
    buildRcloneCmd exe cn sd cfg opts =
      buildRcloneCmd exe cn sd cfg ⟨false, opts.delete, opts.exclude⟩ ++ ["--dry-run"] := by
  unfold buildRcloneCmd
  rw [h]
  simp [List.append_assoc]

/-- The `cmd.remove` call of line 502 recovers exactly the
dry-run-free command, provided no earlier argument equals `--dry-run`. -/
lemma listRemoveFirst_buildRcloneCmd (exe cn sd : String) (cfg : S3Config)
    (opts : SyncOptions) (hdry : opts.dry_run = true)
    (hexe : exe ≠ "--dry-run") (hcn : cn ≠ "--dry-run") (hsd : sd ≠ "--dry-run") :
    listRemoveFirst "--dry-run" (buildRcloneCmd exe cn sd cfg opts) =
      buildRcloneCmd exe cn sd cfg ⟨false, opts.delete, opts.exclude⟩ := by
  rw [buildRcloneCmd_dry_run_append exe cn sd cfg opts hdry]
  exact listRemoveFirst_append_singleton _ _
    (dry_run_not_mem_buildRcloneCmd exe cn sd cfg _ _ hexe hcn hsd)

/-! Evaluation lemmas for `run_rclone_sync`, one per execution path. -/

lemma run_rclone_sync_r1_none (exe cn sd : String) (cfg : S3Config)
    (opts : SyncOptions) (r2 : Option Int) (inputs : List String) :
    run_rclone_sync exe cn sd cfg opts none r2 inputs =
      ⟨false, [buildRcloneCmd exe cn sd cfg opts], inputs, true⟩ := rfl

lemma run_rclone_sync_r1_fail (exe cn sd : String) (cfg : S3Config)
    (opts : SyncOptions) (c1 : Int) (r2 : Option Int) (inputs : List String)
    (hc : c1 ≠ 0) :
    run_rclone_sync exe cn sd cfg opts (some c1) r2 inputs =
      ⟨false, [buildRcloneCmd exe cn sd cfg opts], inputs, true⟩ := by
  simp [run_rclone_sync, run_rclone_sync_body, hc]

lemma run_rclone_sync_dry_eof (exe cn sd : String) (cfg : S3Config)
    (opts : SyncOptions) (r2 : Option Int) (hdry : opts.dry_run = true) :
    run_rclone_sync exe cn sd cfg opts (some 0) r2 [] =
      ⟨false, [buildRcloneCmd exe cn sd cfg opts], [], true⟩ := by
  simp [run_rclone_sync, run_rclone_sync_body, hdry]

lemma run_rclone_sync_dry_yes (exe cn sd : String) (cfg : S3Config)
    (opts : SyncOptions) (r2 : Option Int) (ans : String) (rest : List String)
    (hdry : opts.dry_run = true) (hyes : pyLower (pyStrip ans) = "yes") :
    run_rclone_sync exe cn sd cfg opts (some 0) r2 (ans :: rest) =
      ⟨decide (r2 = some 0),
        [buildRcloneCmd exe cn sd cfg opts,
          listRemoveFirst "--dry-run" (buildRcloneCmd exe cn sd cfg opts)],
        rest, true⟩ := by
  cases r2 with
  | none => simp [run_rclone_sync, run_rclone_sync_body, hdry, hyes]
  | some c2 =>
    by_cases hc2 : c2 = 0
    · subst hc2
      simp [run_rclone_sync, run_rclone_sync_body, hdry, hyes]
    · simp [run_rclone_sync, run_rclone_sync_body, hdry, hyes, hc2]

lemma run_rclone_sync_dry_no (exe cn sd : String) (cfg : S3Config)
    (opts : SyncOptions) (r2 : Option Int) (ans : String) (rest : List String)
    (hdry : opts.dry_run = true) (hno : pyLower (pyStrip ans) ≠ "yes") :
    run_rclone_sync exe cn sd cfg opts (some 0) r2 (ans :: rest) =
      ⟨false, [buildRcloneCmd exe cn sd cfg opts], rest, true⟩ := by
  simp [run_rclone_sync, run_rclone_sync_body, hdry, hno]

lemma run_rclone_sync_nodry (exe cn sd : String) (cfg : S3Config)
    (opts : SyncOptions) (r2 : Option Int) (inputs : List String)
    (hdry : opts.dry_run = false) :
    run_rclone_sync exe cn sd cfg opts (some 0) r2 inputs =
      ⟨true, [buildRcloneCmd exe cn sd cfg opts], inputs, true⟩ := by
  simp [run_rclone_sync, run_rclone_sync_body, hdry]

/-- Counterexample to C1 as stated: with a source directory literally named
`--dry-run` (a valid directory name, which `get_source_directory` would
accept), `cmd.remove('--dry-run')` on line 502 removes the *first*
occurrence — the source-directory argument — so the second invocation is
not the dry-run command with only the appended `--dry-run` flag removed: it
has lost its source and still carries `--dry-run`. -/
theorem run_rclone_sync_two_phase_counterexample :
    (run_rclone_sync "rclone" "/tmp/c" "--dry-run" ⟨"b", "r", "s3:b", "A", "S"⟩
        ⟨true, false, []⟩ (some 0) (some 0) ["yes"]).invocations.getD 1 [] =
      ["rclone", "--config", "/tmp/c", "sync", "s3:b", "--progress",
        "--verbose", "--dry-run"] ∧
    (run_rclone_sync "rclone" "/tmp/c" "--dry-run" ⟨"b", "r", "s3:b", "A", "S"⟩
        ⟨true, false, []⟩ (some 0) (some 0) ["yes"]).invocations.getD 1 [] ≠
      buildRcloneCmd "rclone" "/tmp/c" "--dry-run" ⟨"b", "r", "s3:b", "A", "S"⟩
        ⟨false, false, []⟩ := by
  refine ⟨by decide, by decide⟩

/-- C1 (amended): with the dry-run option selected — and provided none of
the executable path, the config file path and the source directory is the
literal string `--dry-run` — `run_rclone_sync` first invokes `rclone` with
`--dry-run` appended; the actual sync is performed exactly when that dry
run exits with code 0 and the user then answers `yes`, and its command is
the same list (same config file, source, destination, excludes and delete
flag) with only the appended `--dry-run` removed. -/
theorem run_rclone_sync_two_phase
    (exe cn sd : String) (cfg : S3Config) (opts : SyncOptions)
    (r1 r2 : Option Int) (inputs : List String)
    (hdry : opts.dry_run = true)
    (hexe : exe ≠ "--dry-run") (hcn : cn ≠ "--dry-run") (hsd : sd ≠ "--dry-run") :
    (run_rclone_sync exe cn sd cfg opts r1 r2 inputs).invocations.headD [] =
        buildRcloneCmd exe cn sd cfg ⟨false, opts.delete, opts.exclude⟩
          ++ ["--dry-run"] ∧
    ((run_rclone_sync exe cn sd cfg opts r1 r2 inputs).invocations.length = 2 ↔
      r1 = some 0 ∧
        ∃ ans rest, inputs = ans :: rest ∧ pyLower (pyStrip ans) = "yes") ∧
    ((run_rclone_sync exe cn sd cfg opts r1 r2 inputs).invocations.length = 2 →
      (run_rclone_sync exe cn sd cfg opts r1 r2 inputs).invocations =
        [buildRcloneCmd exe cn sd cfg ⟨false, opts.delete, opts.exclude⟩
            ++ ["--dry-run"],
          buildRcloneCmd exe cn sd cfg ⟨false, opts.delete, opts.exclude⟩]) := by
  have hb := buildRcloneCmd_dry_run_append exe cn sd cfg opts hdry
  have hrm := listRemoveFirst_buildRcloneCmd exe cn sd cfg opts hdry hexe hcn hsd
  cases r1 with
  | none =>
    rw [run_rclone_sync_r1_none]
    refine ⟨by simp [hb.symm], ?_, ?_⟩
    · constructor
      · intro h
        simp at h
      · rintro ⟨h, -⟩
        cases h
    · intro h
      simp at h
  | some c1 =>
    by_cases hc : c1 = 0
    · subst hc
      cases inputs with
      | nil =>
        rw [run_rclone_sync_dry_eof exe cn sd cfg opts r2 hdry]
        refine ⟨by simp [hb.symm], ?_, ?_⟩
        · constructor
          · intro h
            simp at h
          · rintro ⟨-, ans, rest, h, -⟩
            cases h
        · intro h
          simp at h
      | cons ans rest =>
        by_cases hyes : pyLower (pyStrip ans) = "yes"
        · rw [run_rclone_sync_dry_yes exe cn sd cfg opts r2 ans rest hdry hyes]
          refine ⟨by simp [hb.symm], ?_, ?_⟩
          · constructor
            · intro _
              exact ⟨rfl, ans, rest, rfl, hyes⟩
            · intro _
              rfl
          · intro _
            dsimp only
            rw [hrm, hb]
        · rw [run_rclone_sync_dry_no exe cn sd cfg opts r2 ans rest hdry hyes]
          refine ⟨by simp [hb.symm], ?_, ?_⟩
          · constructor
            · intro h
              simp at h
            · rintro ⟨-, a, r, heq, hy⟩
              injection heq with h1 h2
              subst h1
              exact absurd hy hyes
          · intro h
            simp at h
    · rw [run_rclone_sync_r1_fail exe cn sd cfg opts c1 r2 inputs hc]
      refine ⟨by simp [hb.symm], ?_, ?_⟩
      · constructor
        · intro h
          simp at h
        · rintro ⟨h, -⟩
          injection h with h
          exact absurd h hc
      · intro h
        simp at h

/-- Witness for C1 (amended): a concrete two-phase run. -/
theorem run_rclone_sync_two_phase_witness :
    (run_rclone_sync "rclone" "/tmp/c" "/src" ⟨"b", "r", "s3:b", "A", "S"⟩
        ⟨true, false, []⟩ (some 0) (some 0) ["yes"]).invocations.headD [] =
      buildRcloneCmd "rclone" "/tmp/c" "/src" ⟨"b", "r", "s3:b", "A", "S"⟩
        ⟨false, false, []⟩ ++ ["--dry-run"] ∧
    ((run_rclone_sync "rclone" "/tmp/c" "/src" ⟨"b", "r", "s3:b", "A", "S"⟩
        ⟨true, false, []⟩ (some 0) (some 0) ["yes"]).invocations.length = 2 ↔
      (some 0 : Option Int) = some 0 ∧
        ∃ ans rest, ["yes"] = ans :: rest ∧ pyLower (pyStrip ans) = "yes") ∧
    ((run_rclone_sync "rclone" "/tmp/c" "/src" ⟨"b", "r", "s3:b", "A", "S"⟩
        ⟨true, false, []⟩ (some 0) (some 0) ["yes"]).invocations.length = 2 →
      (run_rclone_sync "rclone" "/tmp/c" "/src" ⟨"b", "r", "s3:b", "A", "S"⟩
        ⟨true, false, []⟩ (some 0) (some 0) ["yes"]).invocations =
        [buildRcloneCmd "rclone" "/tmp/c" "/src" ⟨"b", "r", "s3:b", "A", "S"⟩
            ⟨false, false, []⟩ ++ ["--dry-run"],
          buildRcloneCmd "rclone" "/tmp/c" "/src" ⟨"b", "r", "s3:b", "A", "S"⟩
            ⟨false, false, []⟩]) :=
  run_rclone_sync_two_phase "rclone" "/tmp/c" "/src" ⟨"b", "r", "s3:b", "A", "S"⟩
    ⟨true, false, []⟩ (some 0) (some 0) ["yes"] rfl
    (by decide) (by decide) (by decide)


lemma mainOptionsStage_trace_sublist (env : Env) (sd : String) (cfg : S3Config)
    (l : List String) :
    List.Sublist (mainOptionsStage env sd cfg l).trace
      [Step.getOptions, Step.confirmSummary, Step.runSync, Step.reportResult] := by
  unfold mainOptionsStage
  split
  · dsimp only; decide
  · split
    · dsimp only; decide
    · split
      · dsimp only; decide
      · dsimp only; decide

lemma mainAfterConfig_trace_sublist (env : Env) (sd : String) (cfg : S3Config)
    (l : List String) :
    List.Sublist (mainAfterConfig env sd cfg l).trace
      [Step.verifyCreds, Step.getConfig, Step.getOptions, Step.confirmSummary,
        Step.runSync, Step.reportResult] := by
  unfold mainAfterConfig
  split
  · dsimp only; decide
  · split
    · exact ((mainOptionsStage_trace_sublist env sd cfg _).trans
        (List.sublist_cons_self _ _)).cons₂ _
    · split
      · dsimp only; decide
      · split
        · split
          · dsimp only; decide
          · exact ((mainOptionsStage_trace_sublist env sd _ _).cons₂ _).cons₂ _
        · dsimp only; decide

lemma mainAfterSource_trace_sublist (env : Env) (sd : String) (l : List String) :
    List.Sublist (mainAfterSource env sd l).trace
      [Step.getConfig, Step.verifyCreds, Step.getConfig, Step.getOptions,
        Step.confirmSummary, Step.runSync, Step.reportResult] := by
  unfold mainAfterSource
  split
  · dsimp only; decide
  · exact (mainAfterConfig_trace_sublist env sd _ _).cons₂ _

lemma mainAfterDep_trace_sublist (env : Env) (l : List String) :
    List.Sublist (mainAfterDep env l).trace
      [Step.getSourceDir, Step.getConfig, Step.verifyCreds, Step.getConfig,
        Step.getOptions, Step.confirmSummary, Step.runSync, Step.reportResult] := by
  unfold mainAfterDep
  split
  · dsimp only; decide
  · exact (mainAfterSource_trace_sublist env _ _).cons₂ _

/-- The steps of any run of `main` form an ordered subsequence of the
canonical pipeline. -/
lemma mainRun_trace_sublist (env : Env) (inputs : List String) :
    List.Sublist (mainRun env inputs).trace canonicalTrace := by
  unfold mainRun canonicalTrace
  split
  · exact ((mainAfterDep_trace_sublist env inputs).cons _).cons₂ _
  · split
    · exact ((mainAfterDep_trace_sublist env inputs).cons₂ _).cons₂ _
    · dsimp only; decide

/-- C9: every run of `main` performs its steps in the fixed pipeline order —
dependency detection/installation, then source directory and configuration
collection, then credential verification, then option collection and
confirmation, then the sync invocation, then the result report.  The trace
of any run is an ordered subsequence of `canonicalTrace`; the second
`getConfig` slot of the canonical order is the single re-collection offered
after a failed verification (lines 554-562), which also respects the order:
no later step starts before it completes. -/
theorem main_pipeline_order (env : Env) (inputs : List String) :
    List.Sublist (mainRun env inputs).trace canonicalTrace :=
  mainRun_trace_sublist env inputs

/-- Function `run_rclone_sync` never runs the sync command more than twice. -/
lemma run_rclone_sync_le_two (exe cn sd : String) (cfg : S3Config)
    (opts : SyncOptions) (r1 r2 : Option Int) (inputs : List String) :
    (run_rclone_sync exe cn sd cfg opts r1 r2 inputs).invocations.length ≤ 2 := by
  unfold run_rclone_sync run_rclone_sync_body
  dsimp only
  split
  · simp
  · split
    · simp
    · split
      · split
        · simp
        · split
          · split
            · simp
            · split
              · simp
              · simp
          · simp
      · simp

/-- Counterexample to C6 as stated: when the dry run itself fails (exit
code 1 here), `run_rclone_sync` returns `False` at line 495 without asking
anything — the available answer `yes` is left unread — so there is no
"offer to proceed after a failed dry run"; the offer of line 499 is only
made after a dry run that exited with code 0. -/
theorem failed_dry_run_offers_no_retry_counterexample :
    (run_rclone_sync "rclone" "/tmp/c" "/src" ⟨"b", "r", "s3:b", "A", "S"⟩
        ⟨true, false, []⟩ (some 1) (some 0) ["yes"]).remaining = ["yes"] ∧
    (run_rclone_sync "rclone" "/tmp/c" "/src" ⟨"b", "r", "s3:b", "A", "S"⟩
        ⟨true, false, []⟩ (some 1) (some 0) ["yes"]).success = false ∧
    (run_rclone_sync "rclone" "/tmp/c" "/src" ⟨"b", "r", "s3:b", "A", "S"⟩
        ⟨true, false, []⟩ (some 1) (some 0) ["yes"]).invocations.length = 1 := by
  refine ⟨by decide, by decide, by decide⟩

/-- C6 (amended): the retry behaviour is — at most one installation
attempt, at most one credential verification followed by at most one
re-collection of the configuration, and at most one sync re-invocation; in
a dry run the single offer to proceed with the actual sync is made exactly
when the dry run exits with code 0 (after a failed dry run the function
returns without any offer). -/
theorem retry_policy :
    (∀ (env : Env) (inputs : List String),
      (mainRun env inputs).trace.count Step.installRclone ≤ 1 ∧
      (mainRun env inputs).trace.count Step.verifyCreds ≤ 1 ∧
      (mainRun env inputs).trace.count Step.getConfig ≤ 2 ∧
      (mainRun env inputs).trace.count Step.runSync ≤ 1) ∧
    (∀ (exe cn sd : String) (cfg : S3Config) (opts : SyncOptions)
        (r1 r2 : Option Int) (ans : String) (rest : List String),
      opts.dry_run = true →
      (run_rclone_sync exe cn sd cfg opts r1 r2 (ans :: rest)).remaining =
        (if r1 = some 0 then rest else ans :: rest) ∧
      (run_rclone_sync exe cn sd cfg opts r1 r2 (ans :: rest)).invocations.length ≤ 2) := by
  constructor
  · intro env inputs
    have h := mainRun_trace_sublist env inputs
    exact ⟨le_trans (h.count_le _) (by decide), le_trans (h.count_le _) (by decide),
      le_trans (h.count_le _) (by decide), le_trans (h.count_le _) (by decide)⟩
  · intro exe cn sd cfg opts r1 r2 ans rest hdry
    refine ⟨?_, run_rclone_sync_le_two exe cn sd cfg opts r1 r2 (ans :: rest)⟩
    cases r1 with
    | none =>
      rw [run_rclone_sync_r1_none]
      simp
    | some c1 =>
      by_cases hc : c1 = 0
      · subst hc
        rw [if_pos rfl]
        by_cases hyes : pyLower (pyStrip ans) = "yes"
        · rw [run_rclone_sync_dry_yes exe cn sd cfg opts r2 ans rest hdry hyes]
        · rw [run_rclone_sync_dry_no exe cn sd cfg opts r2 ans rest hdry hyes]
      · rw [run_rclone_sync_r1_fail exe cn sd cfg opts c1 r2 (ans :: rest) hc]
        simp [hc]

/-- Witness for C6 (amended): concrete instances of both conjuncts. -/
theorem retry_policy_witness :
    (mainRun ⟨true, true, true, fun _ => true, id, true, 0, "rclone", "/t",
        some 0, some 0⟩ ["x"]).trace.count Step.installRclone ≤ 1 ∧
    (run_rclone_sync "rclone" "/t" "/s" ⟨"b", "r", "s3:b", "A", "S"⟩
        ⟨true, false, []⟩ (some 0) (some 0) ["yes"]).remaining =
      (if (some 0 : Option Int) = some 0 then ([] : List String) else ["yes"]) :=
  ⟨(retry_policy.1 ⟨true, true, true, fun _ => true, id, true, 0, "rclone", "/t",
      some 0, some 0⟩ ["x"]).1,
    (retry_policy.2 "rclone" "/t" "/s" ⟨"b", "r", "s3:b", "A", "S"⟩
      ⟨true, false, []⟩ (some 0) (some 0) "yes" [] rfl).1⟩

/-- Only the branch that actually runs the sync yields a reported result. -/
lemma mainOptionsStage_result_some (env : Env) (sd : String) (cfg : S3Config)
    (l : List String) (b : Bool)
    (h : (mainOptionsStage env sd cfg l).result = some b) :
    (mainOptionsStage env sd cfg l).trace =
      [Step.getOptions, Step.confirmSummary, Step.runSync, Step.reportResult] := by
  revert h
  unfold mainOptionsStage
  split
  · intro h; exact absurd h (by simp)
  · split
    · intro h; exact absurd h (by simp)
    · split
      · intro h; exact absurd h (by simp)
      · intro _; rfl

lemma mainAfterConfig_result_some (env : Env) (sd : String) (cfg : S3Config)
    (l : List String) (b : Bool)
    (h : (mainAfterConfig env sd cfg l).result = some b) :
    ∃ pre, (mainAfterConfig env sd cfg l).trace =
      pre ++ [Step.runSync, Step.reportResult] := by
  revert h
  unfold mainAfterConfig
  split
  · intro h; exact absurd h (by simp)
  · split
    · intro h
      dsimp only at h ⊢
      have ht := mainOptionsStage_result_some env sd cfg _ b h
      exact ⟨[Step.verifyCreds, Step.getOptions, Step.confirmSummary],
        by rw [ht]; rfl⟩
    · split
      · intro h; exact absurd h (by simp)
      · split
        · split
          · intro h; exact absurd h (by simp)
          · intro h
            dsimp only at h ⊢
            have ht := mainOptionsStage_result_some env sd _ _ b h
            exact ⟨[Step.verifyCreds, Step.getConfig, Step.getOptions,
              Step.confirmSummary], by rw [ht]; rfl⟩
        · intro h; exact absurd h (by simp)

lemma mainAfterSource_result_some (env : Env) (sd : String) (l : List String)
    (b : Bool) (h : (mainAfterSource env sd l).result = some b) :
    ∃ pre, (mainAfterSource env sd l).trace =
      pre ++ [Step.runSync, Step.reportResult] := by
  revert h
  unfold mainAfterSource
  split
  · intro h; exact absurd h (by simp)
  · intro h
    dsimp only at h ⊢
    obtain ⟨pre, hp⟩ := mainAfterConfig_result_some env sd _ _ b h
    exact ⟨Step.getConfig :: pre, by rw [hp]; rfl⟩

lemma mainAfterDep_result_some (env : Env) (l : List String) (b : Bool)
    (h : (mainAfterDep env l).result = some b) :
    ∃ pre, (mainAfterDep env l).trace = pre ++ [Step.runSync, Step.reportResult] := by
  revert h
  unfold mainAfterDep
  split
  · intro h; exact absurd h (by simp)
  · intro h
    dsimp only at h ⊢
    obtain ⟨pre, hp⟩ := mainAfterSource_result_some env _ _ b h
    exact ⟨Step.getSourceDir :: pre, by rw [hp]; rfl⟩

lemma mainRun_result_some (env : Env) (inputs : List String) (b : Bool)
    (h : (mainRun env inputs).result = some b) :
    ∃ pre, (mainRun env inputs).trace = pre ++ [Step.runSync, Step.reportResult] := by
  revert h
  unfold mainRun
  split
  · intro h
    dsimp only at h ⊢
    obtain ⟨pre, hp⟩ := mainAfterDep_result_some env _ b h
    exact ⟨Step.checkRclone :: pre, by rw [hp]; rfl⟩
  · split
    · intro h
      dsimp only at h ⊢
      obtain ⟨pre, hp⟩ := mainAfterDep_result_some env _ b h
      exact ⟨Step.checkRclone :: Step.installRclone :: pre, by rw [hp]; rfl⟩
    · intro h; exact absurd h (by simp)

/-- Counterexample to C7 as stated: on a supported platform where the
installation attempt leaves `rclone` still missing, `install_rclone` prints
instructions and calls `sys.exit(1)` (line 47): the run stops after the
dependency step without reading any input, so the failed installation is
not followed by any continue/abort choice. -/
theorem failure_choice_counterexample :
    mainRun ⟨false, true, false, fun _ => false, id, true, 0, "rclone", "/t",
        some 0, some 0⟩ ["x"] =
      ⟨[Step.checkRclone, Step.installRclone], ["x"], none⟩ := by
  decide

/-- C7 (amended): failures are reported as text, but only a failed
credential check is followed by a binary continue/abort choice (one answer
is read and `yes` continues, line 379); a missing dependency leads directly
to an installation attempt, a failed installation (or unsupported platform)
exits without reading any input, and a failed sync invocation is reported
with troubleshooting text after which the run ends — `runSync` and
`reportResult` are always the final steps of a run that reaches the sync. -/
theorem failure_reporting :
    (∀ (e : Int) (a : String) (rest : List String), e ≠ 0 →
      verify_aws_credentials true e (a :: rest) =
        some (decide (pyLower (pyStrip a) = "yes"), rest)) ∧
    (∀ (env : Env) (inputs : List String),
      env.rcloneInstalled = false →
      (env.systemSupported && env.installedAfter) = false →
      mainRun env inputs = ⟨[Step.checkRclone, Step.installRclone], inputs, none⟩) ∧
    (∀ (env : Env) (inputs : List String) (b : Bool),
      (mainRun env inputs).result = some b →
      ∃ pre, (mainRun env inputs).trace = pre ++ [Step.runSync, Step.reportResult]) := by
  refine ⟨?_, ?_, mainRun_result_some⟩
  · intro e a rest he
    simp [verify_aws_credentials, he]
  · intro env inputs h1 h2
    simp [mainRun, h1, h2]

/-- Witness for C7 (amended): concrete instances of the first two conjuncts. -/
theorem failure_reporting_witness :
    verify_aws_credentials true 1 ["no"] =
      some (decide (pyLower (pyStrip "no") = "yes"), []) ∧
    mainRun ⟨false, false, true, fun _ => false, id, true, 0, "rclone", "/t",
        some 0, some 0⟩ ["y"] =
      ⟨[Step.checkRclone, Step.installRclone], ["y"], none⟩ :=
  ⟨failure_reporting.1 1 "no" [] (by decide),
    failure_reporting.2.1 ⟨false, false, true, fun _ => false, id, true, 0,
      "rclone", "/t", some 0, some 0⟩ ["y"] rfl rfl⟩
